import Mathlib

/-!
Shallow embedding of the BTP food-supply-chain chaincode.

Namespaces:
* `CC`  — the invoice chaincode shared by `chaincode/invoice/go/invoice.go`,
  `chaincode/invoice/go/utils.go` and `src/unnamed/part_007` (identical
  `Invoice`/`Item` structures and identical `CreateInvoice`, `UpdateInvoice`,
  `DeleteInvoice`); the index-engine functions
  (`CalculateWastageInRollingWindow`, `InvalidateTransactions`,
  `CalculateEthicsIndex`, `BoundIndex`) follow `src/unnamed/part_007`.
* `CCB` — the divergent duplicate of `CalculateWastageInRollingWindow` found in
  `chaincode/invoice/go/invoice.go` (no expired-transaction deletion, no
  sales-exceed-purchases check).
* `P8`  — the sibling contract in `src/unnamed/part_008`
  (`CreateOrUpdateInvoice`, validity counters, totals, reward system).

Modelling conventions:
* The Ledger Store (Fabric world state) is an association list
  `List (String × LVal)` with at most one live entry per key; `PutState`,
  `GetState`, `DelState` become `put`, `get`, `del`.  Rich `GetQueryResult`
  selector queries become executable filters over the list; the store's
  iteration order stands in for the database's unspecified iteration order.
* "Bytes" of a record (the JSON `[]byte` values) are modelled as the stored
  `LVal` itself: provenance records hold the previous `LVal` unmodified.
* A date string is abstracted to `Option Int`: `some d` is a string that
  parses to day-ordinal `d`, `none` an unparseable string.  The source parses
  the same date string under the `"2006-01-02"` layout and (in the scan loops
  of part_007) additionally under RFC3339; the abstraction identifies a date
  string with its parsed value, so a string parses the same way at every
  parse site.
* Go `float64` arithmetic is modelled by `ℚ`; all quantities summed by the
  wastage scan of `CC` are Go `int`s, so those sums are modelled by `ℤ`
  (the float arithmetic on them in the source is exact).
* `time.Now()` is threaded as an explicit `now`/`today` argument.
-/

deriving instance DecidableEq for Except

namespace CC

/-- Item structure (`invoice.go` / part_007): quantity is a Go `int`. -/
structure Item where
  itemID : String
  itemName : String
  quantity : Int
  pricePerUnit : ℚ
  totalPrice : ℚ
  expiryDate : Option Int
  isFoodItem : Bool
  invoiceType : String
  deriving DecidableEq, Repr

/-- Invoice structure (`invoice.go` / part_007). -/
structure Invoice where
  invoiceID : String
  storeID : String
  date : Option Int
  items : List Item
  totalAmount : ℚ
  transactionHash : String
  timestamp : String
  invoiceType : String
  deriving DecidableEq, Repr

/-- A value resident in the world state: a live invoice record, or a
provenance record holding the pre-mutation bytes plus a timestamp
(`CreateProvenanceRecord` in `utils.go`). -/
inductive LVal where
  | inv (i : Invoice)
  | prov (previousState : LVal) (timestamp : String)
  deriving DecidableEq, Repr

/-- The world state: an association list with at most one entry per key. -/
abbrev Store := List (String × LVal)

/-- `GetState`. -/
def get : Store → String → Option LVal
  | [], _ => none
  | (k, v) :: rest, key => if k = key then some v else get rest key

/-- `DelState`: removes every entry stored under the key. -/
def del : Store → String → Store
  | [], _ => []
  | (k, v) :: rest, key =>
    if k = key then del rest key else (k, v) :: del rest key

/-- `PutState`: overwrites the entry under the key. -/
def put (st : Store) (key : String) (v : LVal) : Store :=
  del st key ++ [(key, v)]

/-- Errors returned by the chaincode functions (Go `error` values). -/
inductive Err where
  | invalidInvoiceType
  | notFoodItem
  | invalidExpiryDateFormat (itemID : String)
  | invalidTransactionDateFormat
  | expiredItem (itemID : String)
  | invoiceNotFound (invoiceID : String)
  | invalidInvoiceDateFormat
  | noPurchaseData (itemID : String)
  | salesExceedPurchases (itemID : String)
  deriving DecidableEq, Repr

/-- `ValidateInvoiceType` (utils.go): accepts only `"purchase"` and `"sales"`. -/
def ValidateInvoiceType (invoiceType : String) : Except Err Unit :=
  if invoiceType ≠ "purchase" ∧ invoiceType ≠ "sales" then
    .error .invalidInvoiceType
  else
    .ok ()

/-- `ValidateItem` (utils.go): rejects items not flagged as food items. -/
def ValidateItem (item : Item) : Except Err Unit :=
  if !item.isFoodItem then .error .notFoodItem else .ok ()

/-- The per-item validation loop of `CreateInvoice`: validate the item, parse
its expiry date, parse the invoice date, reject if the invoice date is strictly
after the expiry.  The source's final statement `item.InvoiceType = invoiceType`
assigns to the `range` loop copy of the item, so it does not change the slice;
the loop therefore leaves `items` untouched. -/
def checkItems (date : Option Int) : List Item → Except Err Unit
  | [] => .ok ()
  | item :: rest =>
    match ValidateItem item with
    | .error e => .error e
    | .ok () =>
      match item.expiryDate with
      | none => .error (.invalidExpiryDateFormat item.itemID)
      | some expiry =>
        match date with
        | none => .error .invalidTransactionDateFormat
        | some d =>
          if expiry < d then .error (.expiredItem item.itemID)
          else checkItems date rest

/-- Decidable test used to state claims about expired items: the item's expiry
date parses and is strictly before day `d`. -/
def isExpiredAt (item : Item) (d : Int) : Bool :=
  match item.expiryDate with
  | some e => decide (e < d)
  | none => false

/-- `CreateInvoice` (invoice.go:40-92 / part_007:40-93).  The pair returned is
the world state after the call together with the call's outcome; every write
the source issues before an error return is reflected in the state. -/
def CreateInvoice (st : Store) (invoiceID storeID : String) (date : Option Int)
    (invoiceType : String) (items : List Item) (totalAmount : ℚ)
    (now : String) : Store × Except Err Unit :=
  match ValidateInvoiceType invoiceType with
  | .error e => (st, .error e)
  | .ok () =>
    match checkItems date items with
    | .error e => (st, .error e)
    | .ok () =>
      let invoice : Invoice :=
        { invoiceID := invoiceID, storeID := storeID, date := date,
          items := items, totalAmount := totalAmount, transactionHash := "",
          timestamp := now, invoiceType := invoiceType }
      (put st invoice.invoiceID (.inv invoice), .ok ())

/-- `UpdateInvoice` (invoice.go:95-119 / part_007:96-121): requires an existing
live record, snapshots it under `{id}_provenance_{now}`, then overwrites. -/
def UpdateInvoice (st : Store) (invoiceID : String) (updatedInvoice : Invoice)
    (now : String) : Store × Except Err Unit :=
  match get st invoiceID with
  | none => (st, .error (.invoiceNotFound invoiceID))
  | some existing =>
    let provKey := invoiceID ++ "_provenance_" ++ now
    let st1 := put st provKey (.prov existing now)
    (put st1 invoiceID (.inv updatedInvoice), .ok ())

/-- `DeleteInvoice` (invoice.go:122-140 / part_007:124-143): requires an
existing live record, snapshots it, then deletes the live key. -/
def DeleteInvoice (st : Store) (invoiceID : String) (now : String) :
    Store × Except Err Unit :=
  match get st invoiceID with
  | none => (st, .error (.invoiceNotFound invoiceID))
  | some existing =>
    let provKey := invoiceID ++ "_provenance_" ++ now
    let st1 := put st provKey (.prov existing now)
    (del st1 invoiceID, .ok ())

/-- The rich-query selector
`{"selector":{"items.item_id":itemID,"items.expiry_date":expiryDate}}` used by
the index engine: a document matches when some item has the item id and some
item has the expiry date (the two dotted conditions match array elements
independently).  Provenance records nest the invoice bytes inside a string
field, so they never match an item selector. -/
def queryMatchKey (itemID : String) (expiryDate : Option Int) : LVal → Bool
  | .inv i =>
    (i.items.any (fun item => item.itemID = itemID)) &&
    (i.items.any (fun item => item.expiryDate = expiryDate))
  | .prov _ _ => false

/-- `GetQueryResult` for the item-key selector: the matching invoices with
their store keys, in store iteration order. -/
def queryMatches (st : Store) (itemID : String) (expiryDate : Option Int) :
    List (String × Invoice) :=
  st.filterMap (fun p =>
    match p.2 with
    | .inv i =>
      if queryMatchKey itemID expiryDate (.inv i) then some (p.1, i) else none
    | .prov _ _ => none)

/-- First pass of `CalculateWastageInRollingWindow` (part_007:175-204): scan
the query results once, parsing every invoice date, and record the minimum
date among purchase invoices that carry an item matching both components of
the key.  Returns `none` when no purchase was found. -/
def findFirstPurchaseDate (itemID : String) (expiryDate : Option Int) :
    List (String × Invoice) → Except Err (Option Int)
  | [] => .ok none
  | (_, i) :: rest =>
    match i.date with
    | none => .error .invalidInvoiceDateFormat
    | some d =>
      match findFirstPurchaseDate itemID expiryDate rest with
      | .error e => .error e
      | .ok acc =>
        if i.invoiceType = "purchase" ∧
            i.items.any (fun item =>
              item.itemID = itemID ∧ item.expiryDate = expiryDate) then
          match acc with
          | none => .ok (some d)
          | some d' => .ok (some (min d d'))
        else .ok acc

/-- Second pass of `CalculateWastageInRollingWindow` (part_007:223-270): walk
the query-time snapshot, parse each invoice date, delete outright any invoice
dated strictly after the expiry date (skipping its quantities), and otherwise
accumulate sales and purchase quantities of the items matching the key.
Returns the final `(totalSales, totalPurchases)` and the mutated store; the
store mutations performed before a parse error persist. -/
def scanWindow (itemID : String) (expiryDate : Option Int) (expiryParsed : Int)
    (totalSales totalPurchases : Int) (st : Store) :
    List (String × Invoice) → Store × Except Err (Int × Int)
  | [] => (st, .ok (totalSales, totalPurchases))
  | (_, i) :: rest =>
    match i.date with
    | none => (st, .error .invalidInvoiceDateFormat)
    | some d =>
      if expiryParsed < d then
        scanWindow itemID expiryDate expiryParsed totalSales totalPurchases
          (del st i.invoiceID) rest
      else
        let sales := totalSales +
          (i.items.filter (fun item =>
              item.itemID = itemID ∧ item.expiryDate = expiryDate)).foldl
            (fun acc item =>
              if i.invoiceType = "sales" then acc + item.quantity else acc) 0
        let purchases := totalPurchases +
          (i.items.filter (fun item =>
              item.itemID = itemID ∧ item.expiryDate = expiryDate)).foldl
            (fun acc item =>
              if i.invoiceType = "purchase" then acc + item.quantity else acc) 0
        scanWindow itemID expiryDate expiryParsed sales purchases st rest

/-- `InvalidateTransactions` (part_007:355-385): query the store for the item
key and delete every returned invoice, keyed by its `invoice_id` field. -/
def InvalidateTransactions (st : Store) (itemID : String)
    (expiryDate : Option Int) : Store :=
  (queryMatches st itemID expiryDate).foldl
    (fun acc p => del acc p.2.invoiceID) st

/-- `CalculateWastageInRollingWindow` (part_007:146-285).  Returns the world
state after the call (the scan deletes expired invoices; the
sales-exceed-purchases branch deletes the whole key) and the outcome. -/
def CalculateWastageInRollingWindow (st : Store) (itemID : String)
    (expiryDate : Option Int) : Store × Except Err Int :=
  match expiryDate with
  | none => (st, .error (.invalidExpiryDateFormat itemID))
  | some expiryParsed =>
    match findFirstPurchaseDate itemID expiryDate
        (queryMatches st itemID expiryDate) with
    | .error e => (st, .error e)
    | .ok none => (st, .error (.noPurchaseData itemID))
    | .ok (some _) =>
      match scanWindow itemID expiryDate expiryParsed 0 0 st
          (queryMatches st itemID expiryDate) with
      | (st1, .error e) => (st1, .error e)
      | (st1, .ok (totalSales, totalPurchases)) =>
        if totalPurchases < totalSales then
          (InvalidateTransactions st1 itemID expiryDate,
            .error (.salesExceedPurchases itemID))
        else
          (st1, .ok (totalPurchases - totalSales))

/-- `BoundIndex` (part_007:344-352): clamp an index value to `[0, 100]`. -/
def BoundIndex (index : ℚ) : ℚ :=
  if index < 0 then 0 else if 100 < index then 100 else index

/-- The counting loop of `CalculateEthicsIndex` (part_007:401-432): for every
matching item of every queried invoice, parse the invoice date and the expiry
date and count the transaction as invalid when the invoice date is strictly
after the expiry, as valid otherwise. -/
def ethicsCounts (itemID : String) (expiryDate : Option Int)
    (valid invalid : Nat) : List (String × Invoice) → Except Err (Nat × Nat)
  | [] => .ok (valid, invalid)
  | (_, i) :: rest =>
    let matching := i.items.filter (fun item =>
      item.itemID = itemID ∧ item.expiryDate = expiryDate)
    match matching with
    | [] => ethicsCounts itemID expiryDate valid invalid rest
    | _ :: _ =>
      match i.date with
      | none => .error .invalidInvoiceDateFormat
      | some d =>
        match expiryDate with
        | none => .error (.invalidExpiryDateFormat itemID)
        | some e =>
          if e < d then
            ethicsCounts itemID expiryDate valid
              (invalid + matching.length) rest
          else
            ethicsCounts itemID expiryDate (valid + matching.length)
              invalid rest

/-- `CalculateEthicsIndex` (part_007:388-440): count valid and invalid
transactions for the key; zero invalid transactions yields the perfect score
100, otherwise the result is `BoundIndex(valid / invalid)`. -/
def CalculateEthicsIndex (st : Store) (itemID : String)
    (expiryDate : Option Int) : Except Err ℚ :=
  match ethicsCounts itemID expiryDate 0 0
      (queryMatches st itemID expiryDate) with
  | .error e => .error e
  | .ok (valid, invalid) =>
    if invalid = 0 then .ok 100
    else .ok (BoundIndex ((valid : ℚ) / (invalid : ℚ)))

end CC

namespace CCB

/-- `CalculateWastageInRollingWindow` as duplicated in
`chaincode/invoice/go/invoice.go:142-250`: same first pass, but the second
pass neither deletes expired transactions nor checks sales against purchases —
it returns `totalPurchases − totalSales` unconditionally. -/
def sumWindow (itemID : String) (expiryDate : Option Int)
    (totalSales totalPurchases : Int) :
    List (String × CC.Invoice) → Except CC.Err (Int × Int)
  | [] => .ok (totalSales, totalPurchases)
  | (_, i) :: rest =>
    match i.date with
    | none => .error .invalidInvoiceDateFormat
    | some _ =>
      let matching := i.items.filter (fun item =>
        item.itemID = itemID ∧ item.expiryDate = expiryDate)
      let sales := totalSales + (matching.foldl
        (fun acc item =>
          if i.invoiceType = "sales" then acc + item.quantity else acc) 0)
      let purchases := totalPurchases + (matching.foldl
        (fun acc item =>
          if i.invoiceType = "purchase" then acc + item.quantity else acc) 0)
      sumWindow itemID expiryDate sales purchases rest

/-- The invoice.go variant of the wastage computation; it performs no writes,
so only the outcome is returned. -/
def CalculateWastageInRollingWindow (st : CC.Store) (itemID : String)
    (expiryDate : Option Int) : Except CC.Err Int :=
  match expiryDate with
  | none => .error (.invalidExpiryDateFormat itemID)
  | some _ =>
    match CC.findFirstPurchaseDate itemID expiryDate
        (CC.queryMatches st itemID expiryDate) with
    | .error e => .error e
    | .ok none => .error (.noPurchaseData itemID)
    | .ok (some _) =>
      match sumWindow itemID expiryDate 0 0
          (CC.queryMatches st itemID expiryDate) with
      | .error e => .error e
      | .ok (totalSales, totalPurchases) => .ok (totalPurchases - totalSales)

end CCB

namespace P8

/-- Item structure (part_008): quantity is a Go `float64`; there is no
`is_food_item` flag and no parsing of dates — date strings are compared
lexicographically, so dates stay `String` in this namespace. -/
structure Item where
  itemID : String
  itemName : String
  quantity : ℚ
  pricePerUnit : ℚ
  totalPrice : ℚ
  expiryDate : String
  invoiceType : String
  deriving DecidableEq, Repr

/-- Invoice structure (part_008), with the provenance-chain fields. -/
structure Invoice where
  invoiceID : String
  storeID : String
  date : String
  items : List Item
  totalAmount : ℚ
  transactionHash : String
  timestamp : String
  invoiceType : String
  prevBlockHash : String
  deriving DecidableEq, Repr

/-- ItemKey structure (part_008). -/
structure ItemKey where
  itemID : String
  expiryDate : String
  deriving DecidableEq, Repr

/-- WastageIndex structure (part_008). -/
structure WastageIndex where
  itemKey : ItemKey
  wastage : ℚ
  totalPurchase : ℚ
  totalSales : ℚ
  deriving DecidableEq, Repr

/-- QualityIndex structure (part_008). -/
structure QualityIndex where
  storeID : String
  itemKey : ItemKey
  qualityIndex : ℚ
  deriving DecidableEq, Repr

/-- TransactionValidity structure (part_008). -/
structure TransactionValidity where
  storeID : String
  itemKey : ItemKey
  validTransactions : Int
  invalidTransactions : Int
  deriving DecidableEq, Repr

/-- Values resident in the world state of the part_008 contract.  The
`INVALID_...` log entries written by `MarkTransactionInvalid` store the raw
invoice bytes, hence reuse the `inv` constructor. -/
inductive LVal where
  | inv (i : Invoice)
  | validity (t : TransactionValidity)
  | quality (q : QualityIndex)
  | wastageIdx (w : WastageIndex)
  deriving DecidableEq, Repr

/-- World state for part_008.  `queryFails` models a Ledger Store failure
surfaced through `GetQueryResult` (the source treats query submission,
iteration and per-row deserialization failures identically, so one flag covers
the failing cases). -/
structure Store where
  entries : List (String × LVal)
  queryFails : Bool
  deriving DecidableEq, Repr

/-- Lookup in the entry list. -/
def getEntries : List (String × LVal) → String → Option LVal
  | [], _ => none
  | (k, v) :: rest, key => if k = key then some v else getEntries rest key

/-- `GetState` on the part_008 store. -/
def get (st : Store) (key : String) : Option LVal :=
  getEntries st.entries key

/-- Removal of every entry under a key from the entry list. -/
def delEntries : List (String × LVal) → String → List (String × LVal)
  | [], _ => []
  | (k, v) :: rest, key =>
    if k = key then delEntries rest key else (k, v) :: delEntries rest key

/-- `DelState`. -/
def del (st : Store) (key : String) : Store :=
  { st with entries := delEntries st.entries key }

/-- `PutState`. -/
def put (st : Store) (key : String) (v : LVal) : Store :=
  { st with entries := delEntries st.entries key ++ [(key, v)] }

/-- Lexicographic comparison on the character lists of two strings, modelling
Go's bytewise `<` on strings (identical on the ASCII data this contract
handles). -/
def strLtAux : List Char → List Char → Bool
  | [], [] => false
  | [], _ :: _ => true
  | _ :: _, [] => false
  | a :: as, b :: bs =>
    if a.toNat < b.toNat then true
    else if b.toNat < a.toNat then false
    else strLtAux as bs

/-- Go string `<`. -/
def strLt (a b : String) : Bool := strLtAux a.data b.data

/-- Errors returned by the part_008 functions. -/
inductive Err where
  | invoiceNotFound (id : String)
  | validityNotFound (storeID itemID expiryDate : String)
  | unmarshalFailed
  | queryFailed
  | dueToExpiredItem (inner : Err)
  | dueToSalesExceed (inner : Err)
  | correctiveFailed (inner : Err)
  | rewardFailed (inner : Err)
  deriving DecidableEq, Repr

/-- JSON serialization of a stored value, used for the `string(prevBlockHash)`
assignment in `CreateOrUpdateInvoice`; modelled by the derived textual
representation of the record. -/
def serial (v : LVal) : String := reprStr v

/-- `generateBlockHash` (part_008:499-504): SHA-256 over
`invoiceID ‖ storeID ‖ date ‖ timestamp`, modelled as an injective tagging of
the hashed preimage. -/
def generateBlockHash (invoice : Invoice) : String :=
  "sha256(" ++ invoice.invoiceID ++ invoice.storeID ++ invoice.date ++
    invoice.timestamp ++ ")"

/-- Key `TRANSACTION_VALIDITY_{storeID}_{itemID}_{expiryDate}`. -/
def validityKey (storeID : String) (itemKey : ItemKey) : String :=
  "TRANSACTION_VALIDITY_" ++ storeID ++ "_" ++ itemKey.itemID ++ "_" ++
    itemKey.expiryDate

/-- `UpdateTransactionValidity` (part_008:202-241): read or initialize the
counters record for the key, increment the appropriate counter, write back. -/
def UpdateTransactionValidity (st : Store) (storeID : String)
    (itemKey : ItemKey) (isValid : Bool) : Store × Except Err Unit :=
  match get st (validityKey storeID itemKey) with
  | some (.validity tv) =>
    let tv' := if isValid
      then { tv with validTransactions := tv.validTransactions + 1 }
      else { tv with invalidTransactions := tv.invalidTransactions + 1 }
    (put st (validityKey storeID itemKey) (.validity tv'), .ok ())
  | some _ => (st, .error .unmarshalFailed)
  | none =>
    let tv : TransactionValidity :=
      { storeID := storeID, itemKey := itemKey,
        validTransactions := 0, invalidTransactions := 0 }
    let tv' := if isValid
      then { tv with validTransactions := tv.validTransactions + 1 }
      else { tv with invalidTransactions := tv.invalidTransactions + 1 }
    (put st (validityKey storeID itemKey) (.validity tv'), .ok ())

/-- `MarkTransactionInvalid` (part_008:164-199): fetch the invoice stored
under the *item* id, bump the invalid counter, log the raw invoice bytes under
an `INVALID_...` key, then delete the live record. -/
def MarkTransactionInvalid (st : Store) (storeID : String)
    (itemKey : ItemKey) : Store × Except Err Unit :=
  match get st itemKey.itemID with
  | none => (st, .error (.invoiceNotFound itemKey.itemID))
  | some v =>
    match v with
    | .inv _ =>
      match UpdateTransactionValidity st storeID itemKey false with
      | (st1, .error e) => (st1, .error e)
      | (st1, .ok ()) =>
        let st2 := put st1
          ("INVALID_" ++ storeID ++ "_" ++ itemKey.itemID ++ "_" ++
            itemKey.expiryDate) v
        (del st2 itemKey.itemID, .ok ())
    | _ => (st, .error .unmarshalFailed)

/-- Selector used by the totals queries: `store_id` equals, some item matches
both key components (`$elemMatch`), and `invoice_type` equals. -/
def totalsMatch (storeID : String) (itemKey : ItemKey)
    (invoiceType : String) : LVal → Bool
  | .inv i =>
    i.storeID = storeID &&
    i.items.any (fun item =>
      item.itemID = itemKey.itemID ∧ item.expiryDate = itemKey.expiryDate) &&
    i.invoiceType = invoiceType
  | _ => false

/-- Quantity sum over the items of one invoice that match the key. -/
def itemQuantitySum (itemKey : ItemKey) (i : Invoice) : ℚ :=
  (i.items.filter (fun item =>
    item.itemID = itemKey.itemID ∧ item.expiryDate = itemKey.expiryDate)).foldl
    (fun acc item => acc + item.quantity) 0

/-- `GetTotalPurchases` (part_008:416-445): sum of matching item quantities
across matching purchase invoices; any Ledger Store failure (query submission,
row iteration, or row deserialization) makes the function return `-1`. -/
def GetTotalPurchases (st : Store) (storeID : String) (itemKey : ItemKey) : ℚ :=
  if st.queryFails then -1
  else
    st.entries.foldl (fun acc p =>
      if totalsMatch storeID itemKey "purchase" p.2 then
        match p.2 with
        | .inv i => acc + itemQuantitySum itemKey i
        | _ => acc
      else acc) 0

/-- `GetTotalSales` (part_008:448-477): the symmetric sum over sales invoices,
with the same `-1` on any Ledger Store failure. -/
def GetTotalSales (st : Store) (storeID : String) (itemKey : ItemKey) : ℚ :=
  if st.queryFails then -1
  else
    st.entries.foldl (fun acc p =>
      if totalsMatch storeID itemKey "sales" p.2 then
        match p.2 with
        | .inv i => acc + itemQuantitySum itemKey i
        | _ => acc
      else acc) 0

/-- The per-item loop of `ValidateTransaction` (part_008:141-159): flag the
item as invalid if today's date is lexicographically past its expiry, then
flag it if sales exceed purchases; a flagging failure aborts with a wrapped
error, a successful flagging lets validation continue. -/
def validateItems (st : Store) (storeID today : String) :
    List Item → Store × Except Err Unit
  | [] => (st, .ok ())
  | item :: rest =>
    let itemKey : ItemKey := ⟨item.itemID, item.expiryDate⟩
    let step1 : Store × Except Err Unit :=
      if strLt item.expiryDate today then
        match MarkTransactionInvalid st storeID itemKey with
        | (st', .error e) => (st', .error (Err.dueToExpiredItem e))
        | (st', .ok ()) => (st', .ok ())
      else (st, .ok ())
    match step1 with
    | (st1, .error e) => (st1, .error e)
    | (st1, .ok ()) =>
      let totalPurchases := GetTotalPurchases st1 storeID itemKey
      let totalSales := GetTotalSales st1 storeID itemKey
      let step2 : Store × Except Err Unit :=
        if totalPurchases < totalSales then
          match MarkTransactionInvalid st1 storeID itemKey with
          | (st', .error e) => (st', .error (Err.dueToSalesExceed e))
          | (st', .ok ()) => (st', .ok ())
        else (st1, .ok ())
      match step2 with
      | (st2, .error e) => (st2, .error e)
      | (st2, .ok ()) => validateItems st2 storeID today rest

/-- `ValidateTransaction` (part_008:138-161). -/
def ValidateTransaction (st : Store) (invoice : Invoice) (today : String) :
    Store × Except Err Unit :=
  validateItems st invoice.storeID today invoice.items

/-- `CalculateWastageIndex` (part_008:244-272): per item, read the totals,
mark the key invalid when sales exceed purchases (the returned error is
discarded by the source, but its store writes persist), and record the
wastage as a percentage of total purchases.  The Go function's error result
is always nil, so only the store and the list are returned. -/
def CalculateWastageIndex (st : Store) (storeID : String) :
    List Item → Store × List WastageIndex
  | [] => (st, [])
  | item :: rest =>
    let itemKey : ItemKey := ⟨item.itemID, item.expiryDate⟩
    let totalPurchases := GetTotalPurchases st storeID itemKey
    let totalSales := GetTotalSales st storeID itemKey
    let wastage := totalPurchases - totalSales
    let st1 :=
      if totalPurchases < totalSales then
        (MarkTransactionInvalid st storeID itemKey).1
      else st
    let wi : WastageIndex :=
      { itemKey := itemKey, wastage := wastage / totalPurchases * 100,
        totalPurchase := totalPurchases, totalSales := totalSales }
    match CalculateWastageIndex st1 storeID rest with
    | (st2, wis) => (st2, wi :: wis)

/-- `CalculateQualityIndex` (part_008:275-286): the reciprocal of the average
wastage index (`ℚ` division by zero is 0 where Go would produce NaN/Inf; the
claims below avoid those inputs).  The Go error result is always nil. -/
def CalculateQualityIndex (wastageIndices : List WastageIndex) : ℚ :=
  let totalWastageIndex := wastageIndices.foldl (fun acc wi => acc + wi.wastage) 0
  let averageWastageIndex := totalWastageIndex / (wastageIndices.length : ℚ)
  1 / averageWastageIndex

/-- `GetTransactionValidity` (part_008:480-496). -/
def GetTransactionValidity (st : Store) (storeID : String)
    (itemKey : ItemKey) : Except Err TransactionValidity :=
  match get st (validityKey storeID itemKey) with
  | none => .error (.validityNotFound storeID itemKey.itemID itemKey.expiryDate)
  | some (.validity tv) => .ok tv
  | some _ => .error .unmarshalFailed

/-- The accumulation loop of the store-level `CalculateEthicsIndex`
(part_008:289-307). -/
def sumValidity (st : Store) (storeID : String) :
    List WastageIndex → Except Err (Int × Int)
  | [] => .ok (0, 0)
  | wi :: rest =>
    match GetTransactionValidity st storeID wi.itemKey with
    | .error e => .error e
    | .ok tv =>
      match sumValidity st storeID rest with
      | .error e => .error e
      | .ok (v, i) =>
        .ok (v + tv.validTransactions, i + tv.invalidTransactions)

/-- `CalculateEthicsIndex` (part_008:289-307): sum the validity counters over
the item keys and return `valid / (valid + invalid) × 100`. -/
def CalculateEthicsIndex (st : Store) (storeID : String)
    (wastageIndices : List WastageIndex) : Except Err ℚ :=
  match sumValidity st storeID wastageIndices with
  | .error e => .error e
  | .ok (valid, invalid) =>
    .ok ((valid : ℚ) / ((valid : ℚ) + (invalid : ℚ)) * 100)

/-- `UpdateLedgerWithIndices` (part_008:310-349): write the quality index
(under the literally misspelled `QUALTIY_INDEX_...` key, with the zero-valued
item key the source leaves unset), the wastage index, and the passed-in
transaction-validity record. -/
def UpdateLedgerWithIndices (st : Store) (storeID : String) (qualityIndex : ℚ)
    (wastageIndex : WastageIndex) (averageethicsIndex : ℚ)
    (transactionValidity : TransactionValidity) : Store :=
  let st1 := put st
    ("QUALTIY_INDEX_" ++ storeID ++ "_" ++ wastageIndex.itemKey.itemID ++ "_"
      ++ wastageIndex.itemKey.expiryDate)
    (.quality { storeID := storeID, itemKey := ⟨"", ""⟩,
                qualityIndex := qualityIndex + averageethicsIndex })
  let st2 := put st1
    ("WASTAGE_INDEX_" ++ storeID ++ "_" ++ wastageIndex.itemKey.itemID ++ "_"
      ++ wastageIndex.itemKey.expiryDate)
    (.wastageIdx wastageIndex)
  put st2 (validityKey storeID wastageIndex.itemKey)
    (.validity transactionValidity)

/-- `CreateOrUpdateInvoice` (part_008:79-135): stamp the transaction hash and
previous-block hash, validate, store the invoice, recompute the indices, and
(for every wastage index) call `UpdateLedgerWithIndices` with a zero-valued
`TransactionValidity{}` literal. -/
def CreateOrUpdateInvoice (st : Store) (invoice0 : Invoice) (today : String) :
    Store × Except Err Unit :=
  let invoice1 := { invoice0 with transactionHash := generateBlockHash invoice0 }
  let invoice2 :=
    match get st invoice0.invoiceID with
    | some prev => { invoice1 with prevBlockHash := serial prev }
    | none => invoice1
  match ValidateTransaction st invoice2 today with
  | (st1, .error e) => (st1, .error e)
  | (st1, .ok ()) =>
    let st2 := put st1 invoice2.invoiceID (.inv invoice2)
    match CalculateWastageIndex st2 invoice2.storeID invoice2.items with
    | (st3, wastageIndices) =>
      let qualityIndex := CalculateQualityIndex wastageIndices
      match CalculateEthicsIndex st3 invoice2.storeID wastageIndices with
      | .error e => (st3, .error e)
      | .ok ethicsIndex =>
        let st4 := wastageIndices.foldl (fun acc wi =>
          UpdateLedgerWithIndices acc invoice2.storeID qualityIndex wi
            ethicsIndex
            { storeID := "", itemKey := ⟨"", ""⟩,
              validTransactions := 0, invalidTransactions := 0 }) st3
        (st4, .ok ())

/-- `DeleteInvoice` (part_008:352-381): fetch the live record, delete it, then
log the pre-mutation bytes under `DELETED_{storeID}_{invoiceID}`. -/
def DeleteInvoice (st : Store) (invoiceID : String) : Store × Except Err Unit :=
  match get st invoiceID with
  | none => (st, .error (.invoiceNotFound invoiceID))
  | some v =>
    match v with
    | .inv invoice =>
      let st1 := del st invoiceID
      (put st1 ("DELETED_" ++ invoice.storeID ++ "_" ++ invoiceID) v, .ok ())
    | _ => (st, .error .unmarshalFailed)

/-- `math.MaxFloat64`, exactly: `(2 − 2⁻⁵²) · 2¹⁰²³`. -/
def maxFloat64 : ℚ := 2 ^ 1024 - 2 ^ 971

/-- The values returned by the selector `{"quality_index": {"$lte": 50}}`:
the `quality_index` fields of the stored quality-index records with value at
most 50 (only quality records carry that JSON field). -/
def qualityValuesLe (st : Store) (bound : ℚ) : List ℚ :=
  st.entries.filterMap (fun p =>
    match p.2 with
    | .quality q => if q.qualityIndex ≤ bound then some q.qualityIndex else none
    | _ => none)

/-- The values returned by the selector `{"quality_index": {"$gte": 80}}`. -/
def qualityValuesGe (st : Store) (bound : ℚ) : List ℚ :=
  st.entries.filterMap (fun p =>
    match p.2 with
    | .quality q => if bound ≤ q.qualityIndex then some q.qualityIndex else none
    | _ => none)

/-- `CalculateCorrectiveCoefficient` (part_008:536-575): min/max scan over the
quality-index records with value ≤ 50 (the sentinel initializations carried
exactly); returns the max when the min is zero, else `max / min`. -/
def CalculateCorrectiveCoefficient (st : Store) : Except Err ℚ :=
  if st.queryFails then .error .queryFailed
  else
    let qs := qualityValuesLe st 50
    let minQualityIndex := qs.foldl min maxFloat64
    let maxQualityIndex := qs.foldl max (-maxFloat64)
    if minQualityIndex = 0 then .ok maxQualityIndex
    else .ok (maxQualityIndex / minQualityIndex)

/-- `CalculateRewardCoefficient` (part_008:578-618): min/max scan over the
quality-index records with value ≥ 80; returns 0 when no record qualified,
else `max / min`. -/
def CalculateRewardCoefficient (st : Store) : Except Err ℚ :=
  if st.queryFails then .error .queryFailed
  else
    let qs := qualityValuesGe st 80
    let minQualityIndex := qs.foldl min maxFloat64
    let maxQualityIndex := qs.foldl max (-maxFloat64)
    if minQualityIndex = maxFloat64 then .ok 0
    else .ok (maxQualityIndex / minQualityIndex)

/-- `RewardAndCorrectiveSystem` (part_008:507-533): compute the corrective and
reward coefficients, then apply the three-band rule on the quality index. -/
def RewardAndCorrectiveSystem (st : Store) (storeID : String)
    (qualityIndex : ℚ) : Except Err ℚ :=
  match CalculateCorrectiveCoefficient st with
  | .error e => .error (.correctiveFailed e)
  | .ok Cs =>
    match CalculateRewardCoefficient st with
    | .error e => .error (.rewardFailed e)
    | .ok Rs =>
      if qualityIndex < 50 then .ok (-Cs * (50 - qualityIndex))
      else if 80 ≤ qualityIndex then .ok (Rs * (qualityIndex - 50))
      else .ok 0

end P8

/-! ### Auxiliary definitions used by the verification -/

deriving instance DecidableEq for Except

namespace CC

/-- Every live invoice is stored under its own `invoice_id` field — the
invariant maintained by `CreateInvoice`, which always writes the record at
`invoice.InvoiceID`.  `InvalidateTransactions` deletes query results by their
`invoice_id` field, so its completeness is stated under this invariant. -/
def wellKeyedB (st : Store) : Bool :=
  st.all (fun p =>
    match p.2 with
    | .inv i => p.1 == i.invoiceID
    | .prov _ _ => true)

/-- Recognizer for the expired-item rejection of `CreateInvoice`. -/
def isExpiredItemErr : Except Err Unit → Bool
  | .error (.expiredItem _) => true
  | _ => false

end CC

/-- The per-item-key ethics-index formula as the specification words it:
`validCount/(validCount+invalidCount) × 100`.  This definition follows the
spec's words, for comparison against `CC.CalculateEthicsIndex` (which the
source computes differently). -/
def ethicsIndexSpec (valid invalid : Nat) : ℚ :=
  (valid : ℚ) / ((valid : ℚ) + (invalid : ℚ)) * 100

/-! ### Concrete ledger states used by the witnesses and counterexamples -/

def c1ItP : CC.Item :=
  { itemID := "A", itemName := "rice", quantity := 10, pricePerUnit := 2,
    totalPrice := 20, expiryDate := some 100, isFoodItem := true,
    invoiceType := "purchase" }

def c1ItS : CC.Item := { c1ItP with quantity := 12, invoiceType := "sales" }

def c1InvP : CC.Invoice :=
  { invoiceID := "P1", storeID := "S1", date := some 1, items := [c1ItP],
    totalAmount := 20, transactionHash := "", timestamp := "t1",
    invoiceType := "purchase" }

def c1InvS : CC.Invoice :=
  { c1InvP with
    invoiceID := "SL1", date := some 2, items := [c1ItS], invoiceType := "sales" }

def c1St : CC.Store := [("P1", .inv c1InvP), ("SL1", .inv c1InvS)]

def c2ItP : CC.Item :=
  { itemID := "A", itemName := "rice", quantity := 10, pricePerUnit := 2,
    totalPrice := 20, expiryDate := some 100, isFoodItem := true,
    invoiceType := "purchase" }

def c2ItS : CC.Item := { c2ItP with quantity := 3, invoiceType := "sales" }

def c2InvP : CC.Invoice :=
  { invoiceID := "P1", storeID := "S1", date := some 5, items := [c2ItP],
    totalAmount := 20, transactionHash := "", timestamp := "t1",
    invoiceType := "purchase" }

def c2InvS : CC.Invoice :=
  { c2InvP with
    invoiceID := "SL1", date := some 150, items := [c2ItS], invoiceType := "sales" }

def c2St : CC.Store := [("P1", .inv c2InvP), ("SL1", .inv c2InvS)]

def c3Bad : CC.Item :=
  { itemID := "NF", itemName := "plastic", quantity := 1, pricePerUnit := 2,
    totalPrice := 2, expiryDate := some 30, isFoodItem := false,
    invoiceType := "" }

def c3Exp : CC.Item :=
  { itemID := "B", itemName := "milk", quantity := 1, pricePerUnit := 2,
    totalPrice := 2, expiryDate := some 10, isFoodItem := true,
    invoiceType := "" }

def c4Inv : CC.Invoice :=
  { invoiceID := "I1", storeID := "S1", date := some 1, items := [],
    totalAmount := 7, transactionHash := "", timestamp := "t0",
    invoiceType := "purchase" }

def c4Upd : CC.Invoice := { c4Inv with totalAmount := 9, timestamp := "t1" }

def c4St : CC.Store := [("I1", .inv c4Inv)]

def c4Inv8 : P8.Invoice :=
  { invoiceID := "I2", storeID := "S2", date := "2025-01-01", items := [],
    totalAmount := 7, transactionHash := "", timestamp := "t0",
    invoiceType := "purchase", prevBlockHash := "" }

def c4St8 : P8.Store := { entries := [("I2", .inv c4Inv8)], queryFails := false }

def c5ItP : P8.Item :=
  { itemID := "A", itemName := "rice", quantity := 10, pricePerUnit := 1,
    totalPrice := 10, expiryDate := "2025-06-01", invoiceType := "purchase" }

def c5ItS : P8.Item := { c5ItP with quantity := 5, invoiceType := "sales" }

def c5InvP : P8.Invoice :=
  { invoiceID := "P1", storeID := "S1", date := "2025-01-01", items := [c5ItP],
    totalAmount := 10, transactionHash := "", timestamp := "t1",
    invoiceType := "purchase", prevBlockHash := "" }

def c5InvS : P8.Invoice :=
  { c5InvP with
    invoiceID := "SL1", date := "2025-02-01", items := [c5ItS],
    invoiceType := "sales", timestamp := "t2" }

def c5Vkey : String := "TRANSACTION_VALIDITY_S1_A_2025-06-01"

/-- Ledger before the `CreateOrUpdateInvoice` call of claim C5: one purchase
invoice and a validity record that has already accumulated one invalid
transaction. -/
def c5St0 : P8.Store :=
  { entries := [("P1", .inv c5InvP),
                (c5Vkey, .validity ⟨"S1", ⟨"A", "2025-06-01"⟩, 0, 1⟩)],
    queryFails := false }

/-- The sales invoice as stamped by `CreateOrUpdateInvoice` (transaction hash
set; no previous record, so `prevBlockHash` is untouched). -/
def c5Inv1 : P8.Invoice :=
  { invoiceID := c5InvS.invoiceID, storeID := c5InvS.storeID,
    date := c5InvS.date, items := c5InvS.items,
    totalAmount := c5InvS.totalAmount,
    transactionHash := P8.generateBlockHash c5InvS,
    timestamp := c5InvS.timestamp, invoiceType := c5InvS.invoiceType,
    prevBlockHash := c5InvS.prevBlockHash }

def c5St2 : P8.Store := P8.put c5St0 c5InvS.invoiceID (.inv c5Inv1)

def c5WI : P8.WastageIndex := ⟨⟨"A", "2025-06-01"⟩, 50, 10, 5⟩

def c6ItP : CC.Item :=
  { itemID := "A", itemName := "rice", quantity := 10, pricePerUnit := 2,
    totalPrice := 20, expiryDate := some 100, isFoodItem := true,
    invoiceType := "purchase" }

def c6ItS : CC.Item := { c6ItP with quantity := 5, invoiceType := "sales" }

def c6InvP : CC.Invoice :=
  { invoiceID := "P1", storeID := "S1", date := some 1, items := [c6ItP],
    totalAmount := 20, transactionHash := "", timestamp := "t1",
    invoiceType := "purchase" }

def c6InvS : CC.Invoice :=
  { c6InvP with
    invoiceID := "SL1", date := some 2, items := [c6ItS], invoiceType := "sales" }

def c6St : CC.Store := [("P1", .inv c6InvP), ("SL1", .inv c6InvS)]

def c6bItS : CC.Item := { c6ItP with quantity := 12, invoiceType := "sales" }

def c6bInvS : CC.Invoice :=
  { c6InvP with
    invoiceID := "SL1", date := some 2, items := [c6bItS], invoiceType := "sales" }

def c6bSt : CC.Store := [("P1", .inv c6InvP), ("SL1", .inv c6bInvS)]

def c7It : CC.Item :=
  { itemID := "A", itemName := "rice", quantity := 1, pricePerUnit := 2,
    totalPrice := 2, expiryDate := some 100, isFoodItem := true,
    invoiceType := "" }

def c8K : P8.ItemKey := ⟨"A", "2025-06-01"⟩

def c8FailSt : P8.Store := { entries := [], queryFails := true }

def c8NegIt : P8.Item :=
  { itemID := "A", itemName := "x", quantity := -1, pricePerUnit := 1,
    totalPrice := -1, expiryDate := "2025-06-01", invoiceType := "purchase" }

def c8NegInv : P8.Invoice :=
  { invoiceID := "P1", storeID := "S1", date := "2025-01-01",
    items := [c8NegIt], totalAmount := -1, transactionHash := "",
    timestamp := "t1", invoiceType := "purchase", prevBlockHash := "" }

def c8NegSt : P8.Store :=
  { entries := [("P1", .inv c8NegInv)], queryFails := false }

def c9St : P8.Store :=
  { entries := [("QI1", .quality ⟨"S1", ⟨"A", "e1"⟩, 40⟩)], queryFails := false }

def c10Old : CC.Invoice :=
  { invoiceID := "I1", storeID := "S1", date := some 1, items := [],
    totalAmount := 3, transactionHash := "", timestamp := "t0",
    invoiceType := "sales" }

def c10St : CC.Store := [("I1", .inv c10Old), ("Z", .inv c10Old)]

def c10It : CC.Item :=
  { itemID := "A", itemName := "rice", quantity := 2, pricePerUnit := 2,
    totalPrice := 4, expiryDate := some 100, isFoodItem := true,
    invoiceType := "" }

/-! ### Ledger-store lemmas -/

namespace CC

theorem get_del (st : Store) (key k : String) :
    get (del st key) k = if k = key then none else get st k := by
  induction st with
  | nil => by_cases h : k = key <;> simp [del, get, h]
  | cons p rest ih =>
    obtain ⟨a, b⟩ := p
    by_cases hak : a = key <;> by_cases hk : k = key <;>
      by_cases hakk : a = k <;> simp_all [del, get]

theorem get_append (l1 l2 : Store) (k : String) :
    get (l1 ++ l2) k = ((get l1 k).rec (get l2 k) (fun v => some v)) := by
  induction l1 with
  | nil => simp [get]
  | cons p rest ih =>
    obtain ⟨a, b⟩ := p
    by_cases h : a = k <;> simp [get, h, ih]

theorem get_put (st : Store) (key k : String) (v : LVal) :
    get (put st key v) k = if k = key then some v else get st k := by
  rw [put, get_append, get_del]
  by_cases h : k = key
  · simp [get, h]
  · have h' : ¬(key = k) := fun e => h e.symm
    simp [get, h, h']
    cases get st k <;> simp

theorem get_mem (st : Store) (k : String) (v : LVal)
    (h : get st k = some v) : (k, v) ∈ st := by
  induction st with
  | nil => simp [get] at h
  | cons p rest ih =>
    obtain ⟨a, b⟩ := p
    by_cases hak : a = k
    · subst hak
      simp [get] at h
      simp [h]
    · simp [get, hak] at h
      exact List.mem_cons_of_mem _ (ih h)

theorem mem_del (st : Store) (key : String) (p : String × LVal)
    (h : p ∈ del st key) : p ∈ st := by
  induction st with
  | nil => simp [del] at h
  | cons q rest ih =>
    obtain ⟨a, b⟩ := q
    by_cases hak : a = key
    · simp [del, hak] at h
      exact List.mem_cons_of_mem _ (ih h)
    · simp [del, hak] at h
      rcases h with h | h
      · simp [h]
      · exact List.mem_cons_of_mem _ (ih h)

end CC

namespace P8

theorem getEntries_delEntries (l : List (String × LVal)) (key k : String) :
    getEntries (delEntries l key) k
      = if k = key then none else getEntries l k := by
  induction l with
  | nil => by_cases h : k = key <;> simp [delEntries, getEntries, h]
  | cons p rest ih =>
    obtain ⟨a, b⟩ := p
    by_cases hak : a = key <;> by_cases hk : k = key <;>
      by_cases hakk : a = k <;> simp_all [delEntries, getEntries]

theorem getEntries_append (l1 l2 : List (String × LVal)) (k : String) :
    getEntries (l1 ++ l2) k
      = ((getEntries l1 k).rec (getEntries l2 k) (fun v => some v)) := by
  induction l1 with
  | nil => simp [getEntries]
  | cons p rest ih =>
    obtain ⟨a, b⟩ := p
    by_cases h : a = k <;> simp [getEntries, h, ih]

theorem get_put8 (st : Store) (key k : String) (v : LVal) :
    get (put st key v) k = if k = key then some v else get st k := by
  show getEntries (delEntries st.entries key ++ [(key, v)]) k = _
  rw [getEntries_append, getEntries_delEntries]
  by_cases h : k = key
  · simp [getEntries, h]
  · have h' : ¬(key = k) := fun e => h e.symm
    simp [getEntries, h, h', get]
    cases getEntries st.entries k <;> simp

theorem get_del8 (st : Store) (key k : String) :
    get (del st key) k = if k = key then none else get st k := by
  show getEntries (delEntries st.entries key) k = _
  rw [getEntries_delEntries]
  rfl

end P8

/-! ### Index-engine lemmas (part_007) -/

namespace CC

theorem get_foldl_del (l : List (String × Invoice)) (st : Store) (k : String) :
    get (l.foldl (fun acc p => del acc p.2.invoiceID) st) k
      = if l.any (fun p => p.2.invoiceID = k) then none else get st k := by
  induction l generalizing st with
  | nil => simp
  | cons p rest ih =>
    simp only [List.foldl_cons, List.any_cons, ih, get_del]
    by_cases h : p.2.invoiceID = k
    · subst h
      by_cases hr : rest.any (fun q => q.2.invoiceID = p.2.invoiceID) = true <;>
        simp [hr]
    · have hk : ¬(k = p.2.invoiceID) := fun e => h e.symm
      by_cases hr : rest.any (fun q => q.2.invoiceID = k) = true <;>
        simp [h, hr, hk]

theorem scanWindow_mem (itemID : String) (e : Option Int) (eP : Int) :
    ∀ (l : List (String × Invoice)) (S P : Int) (st st1 : Store)
      (r : Except Err (Int × Int)),
      scanWindow itemID e eP S P st l = (st1, r) → ∀ p, p ∈ st1 → p ∈ st := by
  intro l
  induction l with
  | nil =>
    intro S P st st1 r h p hp
    simp [scanWindow] at h
    rw [← h.1] at hp
    exact hp
  | cons q rest ih =>
    intro S P st st1 r h p hp
    obtain ⟨key, i⟩ := q
    simp only [scanWindow] at h
    cases hd : i.date with
    | none =>
      rw [hd] at h
      simp at h
      rw [← h.1] at hp
      exact hp
    | some d =>
      rw [hd] at h
      simp only at h
      by_cases hlt : eP < d
      · rw [if_pos hlt] at h
        exact mem_del _ _ _ (ih _ _ _ _ _ h p hp)
      · rw [if_neg hlt] at h
        exact ih _ _ _ _ _ h p hp

theorem wellKeyedB_subset (st st' : Store)
    (hsub : ∀ p, p ∈ st' → p ∈ st) (h : wellKeyedB st = true) :
    wellKeyedB st' = true := by
  rw [wellKeyedB, List.all_eq_true] at h ⊢
  exact fun p hp => h p (hsub p hp)

theorem invalidate_complete (st : Store) (itemID : String) (e : Option Int)
    (hwk : wellKeyedB st = true) (k : String) (i : Invoice)
    (h : get (InvalidateTransactions st itemID e) k = some (.inv i)) :
    queryMatchKey itemID e (.inv i) = false := by
  unfold InvalidateTransactions at h
  rw [get_foldl_del] at h
  by_cases hany : (queryMatches st itemID e).any (fun p => p.2.invoiceID = k) = true
  · simp [hany] at h
  · rw [if_neg hany] at h
    by_contra hm
    have hm' : queryMatchKey itemID e (.inv i) = true := by
      cases hq : queryMatchKey itemID e (.inv i)
      · exact absurd hq hm
      · rfl
    have hmem : (k, LVal.inv i) ∈ st := get_mem _ _ _ h
    have hkey : k = i.invoiceID := by
      have := List.all_eq_true.mp hwk _ hmem
      simpa using this
    apply hany
    refine List.any_eq_true.mpr ⟨(k, i), ?_, by simp [hkey]⟩
    unfold queryMatches
    exact List.mem_filterMap.mpr ⟨(k, .inv i), hmem, by simp [hm']⟩

theorem BoundIndex_nonneg (x : ℚ) : 0 ≤ BoundIndex x := by
  unfold BoundIndex
  split
  · norm_num
  · split
    · norm_num
    · linarith [not_lt.mp (by assumption : ¬x < 0)]

theorem BoundIndex_le (x : ℚ) : BoundIndex x ≤ 100 := by
  unfold BoundIndex
  split
  · norm_num
  · split
    · norm_num
    · linarith [not_lt.mp (by assumption : ¬(100 : ℚ) < x)]

theorem checkItems_expired (d : Int) :
    ∀ (items : List Item),
      (∀ it ∈ items, it.isFoodItem = true) →
      (∀ it ∈ items, it.expiryDate.isSome = true) →
      (∃ it ∈ items, isExpiredAt it d = true) →
      ∃ badID, checkItems (some d) items = .error (.expiredItem badID) := by
  intro items
  induction items with
  | nil => intro _ _ hexp; simp at hexp
  | cons it rest ih =>
    intro hfood hdates hexp
    have hf : it.isFoodItem = true := hfood it (by simp)
    obtain ⟨e, he⟩ := Option.isSome_iff_exists.mp (hdates it (by simp))
    by_cases hexpd : isExpiredAt it d = true
    · refine ⟨it.itemID, ?_⟩
      rw [isExpiredAt, he] at hexpd
      have hlt : e < d := of_decide_eq_true hexpd
      simp [checkItems, ValidateItem, hf, he, hlt]
    · have hnl : ¬(e < d) := by
        intro hlt
        apply hexpd
        rw [isExpiredAt, he]
        exact decide_eq_true hlt
      have hrest : ∃ x ∈ rest, isExpiredAt x d = true := by
        rcases hexp with ⟨x, hx, hxe⟩
        rcases List.mem_cons.mp hx with h | h
        · subst h; exact absurd hxe hexpd
        · exact ⟨x, h, hxe⟩
      obtain ⟨badID, hb⟩ := ih (fun x hx => hfood x (List.mem_cons_of_mem _ hx))
        (fun x hx => hdates x (List.mem_cons_of_mem _ hx)) hrest
      refine ⟨badID, ?_⟩
      simp [checkItems, ValidateItem, hf, he, hnl, hb]

end CC

/-! ### Evaluation lemmas for the claim-C5 scenario -/

theorem c5_totalsP0 :
    P8.GetTotalPurchases c5St0 "S1" ⟨"A", "2025-06-01"⟩ = 10 := by
  simp +decide [P8.GetTotalPurchases, P8.totalsMatch, P8.itemQuantitySum,
    c5St0, P8.put, P8.delEntries, c5InvP, c5ItP, c5ItS, c5InvS, c5Vkey]

theorem c5_totalsS0 :
    P8.GetTotalSales c5St0 "S1" ⟨"A", "2025-06-01"⟩ = 0 := by
  simp +decide [P8.GetTotalSales, P8.totalsMatch, P8.itemQuantitySum,
    c5St0, P8.put, P8.delEntries, c5InvP, c5ItP, c5ItS, c5InvS, c5Vkey]

theorem c5_prevAbsent : P8.get c5St0 c5InvS.invoiceID = none := by decide

theorem c5_validate (inv : P8.Invoice) (h1 : inv.storeID = "S1")
    (h2 : inv.items = [c5ItS]) :
    P8.ValidateTransaction c5St0 inv "2025-02-01" = (c5St0, .ok ()) := by
  have hstr : P8.strLt "2025-06-01" "2025-02-01" = false := by decide
  simp [P8.ValidateTransaction, P8.validateItems, h1, h2, c5ItS, c5ItP, hstr,
    c5_totalsP0, c5_totalsS0]
  norm_num

theorem c5_totalsP1 :
    P8.GetTotalPurchases c5St2 "S1" ⟨"A", "2025-06-01"⟩ = 10 := by
  simp +decide [P8.GetTotalPurchases, P8.totalsMatch, P8.itemQuantitySum,
    c5St2, c5St0, P8.put, P8.delEntries, c5InvP, c5ItP, c5ItS, c5InvS,
    c5Inv1, c5Vkey]

theorem c5_totalsS1 :
    P8.GetTotalSales c5St2 "S1" ⟨"A", "2025-06-01"⟩ = 5 := by
  simp +decide [P8.GetTotalSales, P8.totalsMatch, P8.itemQuantitySum,
    c5St2, c5St0, P8.put, P8.delEntries, c5InvP, c5ItP, c5ItS, c5InvS,
    c5Inv1, c5Vkey]

theorem c5_wastage :
    P8.CalculateWastageIndex c5St2 c5InvS.storeID c5InvS.items
      = (c5St2, [c5WI]) := by
  simp [P8.CalculateWastageIndex, c5_totalsP1, c5_totalsS1, c5InvS, c5InvP,
    c5ItS, c5ItP, c5WI]
  try norm_num

theorem c5_ethics :
    P8.CalculateEthicsIndex c5St2 c5InvS.storeID [c5WI] = .ok 0 := by
  have hgv : P8.GetTransactionValidity c5St2 "S1" ⟨"A", "2025-06-01"⟩
      = .ok ⟨"S1", ⟨"A", "2025-06-01"⟩, 0, 1⟩ := by decide
  simp [P8.CalculateEthicsIndex, P8.sumValidity, c5WI, c5InvS, c5InvP, hgv]
  try norm_num

theorem c5_ulwiGet (Q E : ℚ) :
    P8.get (P8.UpdateLedgerWithIndices c5St2 "S1" Q c5WI E ⟨"", ⟨"", ""⟩, 0, 0⟩)
        c5Vkey
      = some (.validity ⟨"", ⟨"", ""⟩, 0, 0⟩) := by
  simp +decide [P8.UpdateLedgerWithIndices, P8.put, P8.get, P8.getEntries,
    P8.validityKey, P8.delEntries, c5St2, c5St0, c5Vkey, c5WI, c5InvS, c5InvP,
    c5Inv1, c5ItS, c5ItP]

/-! ### Evaluation lemmas for the claim-C9 witness -/

theorem c9_qle : P8.qualityValuesLe c9St 50 = [40] := by
  simp only [P8.qualityValuesLe, c9St, List.filterMap_cons, List.filterMap_nil]
  norm_num

theorem c9_qge : P8.qualityValuesGe c9St 80 = [] := by
  simp only [P8.qualityValuesGe, c9St, List.filterMap_cons, List.filterMap_nil]
  norm_num

theorem c9_corr : P8.CalculateCorrectiveCoefficient c9St = .ok 1 := by
  simp only [P8.CalculateCorrectiveCoefficient, c9_qle]
  norm_num [P8.maxFloat64, min_def, max_def, c9St]

theorem c9_rew : P8.CalculateRewardCoefficient c9St = .ok 0 := by
  simp only [P8.CalculateRewardCoefficient, c9_qge]
  norm_num [c9St]

/-! ### The claims -/

/-- Claim C1: for every `(itemID, expiryDate)` key, if at the end of the
rolling-window scan the summed sales quantity exceeds the summed purchase
quantity, then `CalculateWastageInRollingWindow` deletes every ledger-resident
invoice matching that key (via `InvalidateTransactions`) and returns the
sales-exceed-purchases error; no wastage value is returned by that call.
Stated for any store whose live invoices sit under their own invoice ids
(the invariant `CreateInvoice` maintains). -/
theorem claim_C1 (st : CC.Store) (itemID : String) (e0 d0 S P : Int)
    (st1 : CC.Store)
    (hwk : CC.wellKeyedB st = true)
    (hfirst : CC.findFirstPurchaseDate itemID (some e0)
      (CC.queryMatches st itemID (some e0)) = .ok (some d0))
    (hscan : CC.scanWindow itemID (some e0) e0 0 0 st
      (CC.queryMatches st itemID (some e0)) = (st1, .ok (S, P)))
    (hgt : P < S) :
    CC.CalculateWastageInRollingWindow st itemID (some e0)
      = (CC.InvalidateTransactions st1 itemID (some e0),
         .error (.salesExceedPurchases itemID)) ∧
    ∀ k i, CC.get (CC.InvalidateTransactions st1 itemID (some e0)) k
        = some (.inv i) → CC.queryMatchKey itemID (some e0) (.inv i) = false := by
  constructor
  · simp only [CC.CalculateWastageInRollingWindow, hfirst, hscan]
    rw [if_pos hgt]
  · intro k i h
    have hsub := CC.scanWindow_mem itemID (some e0) e0 _ _ _ _ _ _ hscan
    exact CC.invalidate_complete st1 itemID (some e0)
      (CC.wellKeyedB_subset st st1 hsub hwk) k i h

/-- Witness for C1: purchase of 10 and sale of 12 for item `A`; the call
returns the sales-exceed-purchases error and both invoices are gone. -/
theorem claim_C1_witness :
    (CC.CalculateWastageInRollingWindow c1St "A" (some 100)).2
      = .error (.salesExceedPurchases "A") ∧
    CC.get (CC.CalculateWastageInRollingWindow c1St "A" (some 100)).1 "P1"
      = none ∧
    CC.get (CC.CalculateWastageInRollingWindow c1St "A" (some 100)).1 "SL1"
      = none := by
  have h := claim_C1 c1St "A" 100 1 12 10 c1St (by decide) (by decide)
    (by decide) (by decide)
  rw [h.1]
  refine ⟨rfl, ?_, ?_⟩ <;> decide

/-- Claim C2, counterexample: with one valid and one invalid transaction for
the key, `CalculateEthicsIndex` (part_007) returns `BoundIndex(1/1) = 1`,
while the claimed formula `validCount/(validCount+invalidCount) × 100` gives
50. -/
theorem claim_C2_counterexample :
    CC.CalculateEthicsIndex c2St "A" (some 100) = .ok 1 ∧
    ethicsIndexSpec 1 1 = 50 ∧ (1 : ℚ) ≠ 50 := by
  refine ⟨?_, by norm_num [ethicsIndexSpec], by norm_num⟩
  have h : CC.ethicsCounts "A" (some 100) 0 0
      (CC.queryMatches c2St "A" (some 100)) = .ok (1, 1) := by decide
  simp only [CC.CalculateEthicsIndex, h]
  norm_num [CC.BoundIndex]

/-- Claim C2 as amended: when the count scan succeeds with `v` valid and `i`
invalid transactions (invalid exactly when the invoice date is strictly after
the expiry), `CalculateEthicsIndex` returns 100 if `i = 0` and otherwise
`BoundIndex(v / i)` — the valid/invalid ratio clamped to `[0, 100]`, not
`v/(v+i) × 100` — and every returned value lies in `[0, 100]`. -/
theorem claim_C2 (st : CC.Store) (itemID : String) (e : Option Int) (v i : Nat)
    (h : CC.ethicsCounts itemID e 0 0 (CC.queryMatches st itemID e)
      = .ok (v, i)) :
    CC.CalculateEthicsIndex st itemID e
      = .ok (if i = 0 then 100 else CC.BoundIndex ((v : ℚ) / (i : ℚ))) ∧
    ∀ q, CC.CalculateEthicsIndex st itemID e = .ok q → 0 ≤ q ∧ q ≤ 100 := by
  have h1 : CC.CalculateEthicsIndex st itemID e
      = .ok (if i = 0 then 100 else CC.BoundIndex ((v : ℚ) / (i : ℚ))) := by
    simp only [CC.CalculateEthicsIndex, h]
    by_cases hi : i = 0 <;> simp [hi]
  refine ⟨h1, fun q hq => ?_⟩
  rw [h1] at hq
  injection hq with hq'
  subst hq'
  by_cases hi : i = 0
  · simp [hi]
  · simp [hi]
    exact ⟨CC.BoundIndex_nonneg _, CC.BoundIndex_le _⟩

/-- Witness for the amended C2 at the concrete one-valid/one-invalid store. -/
theorem claim_C2_witness :
    CC.CalculateEthicsIndex c2St "A" (some 100)
      = .ok (CC.BoundIndex ((1 : ℚ) / (1 : ℚ))) ∧
    0 ≤ CC.BoundIndex ((1 : ℚ) / (1 : ℚ)) ∧
    CC.BoundIndex ((1 : ℚ) / (1 : ℚ)) ≤ 100 := by
  have h := claim_C2 c2St "A" (some 100) 1 1 (by decide)
  have h1 : CC.CalculateEthicsIndex c2St "A" (some 100)
      = .ok (CC.BoundIndex ((1 : ℚ) / (1 : ℚ))) := by
    rw [h.1]
    norm_num
  exact ⟨h1, (h.2 _ h1).1, (h.2 _ h1).2⟩

/-- Claim C3, counterexample: an invoice whose first item is not a food item
and whose second item is expired is rejected with the not-a-food-item error,
not an expired-item error — so "the call returns an ExpiredItem error" fails
as stated, though nothing is written either way. -/
theorem claim_C3_counterexample :
    CC.CreateInvoice [] "I1" "S1" (some 20) "purchase" [c3Bad, c3Exp] 4 "T"
      = ([], .error .notFoodItem) ∧
    CC.isExpiredAt c3Exp 20 = true ∧
    (CC.CreateInvoice [] "I1" "S1" (some 20) "purchase" [c3Bad, c3Exp] 4 "T").2
      ≠ .error (.expiredItem "B") := by
  refine ⟨by decide, by decide, by decide⟩

/-- Claim C3 as amended: if the invoice type is valid and every item is a food
item with a well-formed expiry date, then whenever some item's expiry date is
strictly before the invoice date the whole call fails with an expired-item
error and the store is unchanged — no item of the invoice is accepted. -/
theorem claim_C3 (st : CC.Store) (id sid : String) (d : Int) (tp : String)
    (items : List CC.Item) (amt : ℚ) (now : String)
    (htp : tp = "purchase" ∨ tp = "sales")
    (hfood : ∀ it ∈ items, it.isFoodItem = true)
    (hdates : ∀ it ∈ items, it.expiryDate.isSome = true)
    (hexp : ∃ it ∈ items, CC.isExpiredAt it d = true) :
    ∃ badID, CC.CreateInvoice st id sid (some d) tp items amt now
      = (st, .error (.expiredItem badID)) := by
  have htp' : CC.ValidateInvoiceType tp = .ok () := by
    rcases htp with h | h <;> simp [CC.ValidateInvoiceType, h]
  obtain ⟨badID, hb⟩ := CC.checkItems_expired d items hfood hdates hexp
  exact ⟨badID, by simp [CC.CreateInvoice, htp', hb]⟩

/-- Witness for the amended C3: a single food item with expiry day 10 on an
invoice dated day 20 is rejected as expired and the store stays empty. -/
theorem claim_C3_witness :
    CC.isExpiredItemErr
      (CC.CreateInvoice [] "I1" "S1" (some 20) "purchase" [c3Exp] 4 "T").2
      = true ∧
    (CC.CreateInvoice [] "I1" "S1" (some 20) "purchase" [c3Exp] 4 "T").1
      = [] := by
  obtain ⟨badID, hb⟩ := claim_C3 [] "I1" "S1" 20 "purchase" [c3Exp] 4 "T"
    (Or.inl rfl) (by decide) (by decide) (by decide)
  rw [hb]
  exact ⟨rfl, rfl⟩

/-- Claim C4: every successful `UpdateInvoice` and `DeleteInvoice` call (in
`invoice.go`, and `DeleteInvoice` of part_008) writes exactly one new
provenance record — under a key absent before the call — whose content holds
the pre-mutation bytes of the live record, while every other key is
untouched; after a successful `DeleteInvoice`, a `Get` on the invoice id
returns absent. -/
theorem claim_C4 (st : CC.Store) (id : String) (upd : CC.Invoice)
    (old : CC.LVal) (now : String) (st8 : P8.Store) (id8 : String)
    (inv8 : P8.Invoice)
    (hold : CC.get st id = some old)
    (hfresh : CC.get st (id ++ "_provenance_" ++ now) = none)
    (hold8 : P8.get st8 id8 = some (.inv inv8))
    (hfresh8 : P8.get st8 ("DELETED_" ++ inv8.storeID ++ "_" ++ id8) = none) :
    ((CC.UpdateInvoice st id upd now).2 = .ok () ∧
     CC.get (CC.UpdateInvoice st id upd now).1 (id ++ "_provenance_" ++ now)
       = some (.prov old now) ∧
     CC.get (CC.UpdateInvoice st id upd now).1 id = some (.inv upd) ∧
     ∀ k, k ≠ id ++ "_provenance_" ++ now → k ≠ id →
       CC.get (CC.UpdateInvoice st id upd now).1 k = CC.get st k) ∧
    ((CC.DeleteInvoice st id now).2 = .ok () ∧
     CC.get (CC.DeleteInvoice st id now).1 (id ++ "_provenance_" ++ now)
       = some (.prov old now) ∧
     CC.get (CC.DeleteInvoice st id now).1 id = none ∧
     ∀ k, k ≠ id ++ "_provenance_" ++ now → k ≠ id →
       CC.get (CC.DeleteInvoice st id now).1 k = CC.get st k) ∧
    ((P8.DeleteInvoice st8 id8).2 = .ok () ∧
     P8.get (P8.DeleteInvoice st8 id8).1
       ("DELETED_" ++ inv8.storeID ++ "_" ++ id8) = some (.inv inv8) ∧
     P8.get (P8.DeleteInvoice st8 id8).1 id8 = none ∧
     ∀ k, k ≠ "DELETED_" ++ inv8.storeID ++ "_" ++ id8 → k ≠ id8 →
       P8.get (P8.DeleteInvoice st8 id8).1 k = P8.get st8 k) := by
  have hprovne : id ++ "_provenance_" ++ now ≠ id := by
    intro h
    rw [h, hold] at hfresh
    exact Option.noConfusion hfresh
  have hdelne : ("DELETED_" ++ inv8.storeID ++ "_" ++ id8) ≠ id8 := by
    intro h
    rw [h, hold8] at hfresh8
    exact Option.noConfusion hfresh8
  refine ⟨?_, ?_, ?_⟩
  · simp only [CC.UpdateInvoice, hold]
    refine ⟨trivial, ?_, ?_, ?_⟩
    · rw [CC.get_put, if_neg hprovne, CC.get_put, if_pos rfl]
    · rw [CC.get_put, if_pos rfl]
    · intro k hk1 hk2
      rw [CC.get_put, if_neg hk2, CC.get_put, if_neg hk1]
  · simp only [CC.DeleteInvoice, hold]
    refine ⟨trivial, ?_, ?_, ?_⟩
    · rw [CC.get_del, if_neg hprovne, CC.get_put, if_pos rfl]
    · rw [CC.get_del, if_pos rfl]
    · intro k hk1 hk2
      rw [CC.get_del, if_neg hk2, CC.get_put, if_neg hk1]
  · simp only [P8.DeleteInvoice, hold8]
    refine ⟨trivial, ?_, ?_, ?_⟩
    · rw [P8.get_put8, if_pos rfl]
    · rw [P8.get_put8, if_neg (fun e => hdelne e.symm), P8.get_del8, if_pos rfl]
    · intro k hk1 hk2
      rw [P8.get_put8, if_neg hk1, P8.get_del8, if_neg hk2]

/-- Witness for C4 at a concrete one-invoice store (for both contracts). -/
theorem claim_C4_witness :
    CC.get (CC.UpdateInvoice c4St "I1" c4Upd "TS").1 "I1_provenance_TS"
      = some (.prov (.inv c4Inv) "TS") ∧
    CC.get (CC.DeleteInvoice c4St "I1" "TS").1 "I1" = none ∧
    P8.get (P8.DeleteInvoice c4St8 "I2").1 "DELETED_S2_I2"
      = some (.inv c4Inv8) := by
  have h := claim_C4 c4St "I1" c4Upd (.inv c4Inv) "TS" c4St8 "I2" c4Inv8
    (by decide) (by decide) (by decide) (by decide)
  exact ⟨h.1.2.1, h.2.1.2.2.1, h.2.2.2.1⟩

/-- Claim C5 (code bug): the validity counters are not monotone.  Before the
call, the `TRANSACTION_VALIDITY_S1_A_2025-06-01` record holds one invalid
transaction; a perfectly valid `CreateOrUpdateInvoice` then succeeds and —
because it passes the zero-valued `TransactionValidity{}` literal to
`UpdateLedgerWithIndices` — overwrites the record with zeroed counters,
resetting `invalidCount` from 1 to 0. -/
theorem claim_C5 :
    P8.get c5St0 c5Vkey
      = some (.validity ⟨"S1", ⟨"A", "2025-06-01"⟩, 0, 1⟩) ∧
    (P8.CreateOrUpdateInvoice c5St0 c5InvS "2025-02-01").2 = .ok () ∧
    P8.get (P8.CreateOrUpdateInvoice c5St0 c5InvS "2025-02-01").1 c5Vkey
      = some (.validity ⟨"", ⟨"", ""⟩, 0, 0⟩) := by
  have hfold :
      ({ invoiceID := c5InvS.invoiceID, storeID := c5InvS.storeID,
         date := c5InvS.date, items := c5InvS.items,
         totalAmount := c5InvS.totalAmount,
         transactionHash := P8.generateBlockHash c5InvS,
         timestamp := c5InvS.timestamp, invoiceType := c5InvS.invoiceType,
         prevBlockHash := c5InvS.prevBlockHash } : P8.Invoice) = c5Inv1 := rfl
  have hfold2 : P8.put c5St0 c5InvS.invoiceID (P8.LVal.inv c5Inv1) = c5St2 :=
    rfl
  refine ⟨by decide, ?_, ?_⟩
  · simp only [P8.CreateOrUpdateInvoice, c5_prevAbsent]
    rw [c5_validate _ rfl rfl]
    dsimp only
    rw [hfold, hfold2, c5_wastage]
    dsimp only
    rw [c5_ethics]
  · simp only [P8.CreateOrUpdateInvoice, c5_prevAbsent]
    rw [c5_validate _ rfl rfl]
    dsimp only
    rw [hfold, hfold2, c5_wastage]
    dsimp only
    rw [c5_ethics]
    dsimp only [List.foldl]
    have hsid : c5InvS.storeID = "S1" := rfl
    rw [hsid]
    exact c5_ulwiGet _ _

/-- Claim C6, counterexample: the duplicate `CalculateWastageInRollingWindow`
in `chaincode/invoice/go/invoice.go` has no sales-exceed-purchases check, so
with purchases 10 and sales 12 it returns the wastage value −2 without an
error, violating the claimed non-negativity of every returned wastage. -/
theorem claim_C6_counterexample :
    CCB.CalculateWastageInRollingWindow c6bSt "A" (some 100) = .ok (-2) ∧
    ¬((0 : Int) ≤ -2) := by
  refine ⟨by decide, by decide⟩

/-- Claim C6 as amended: for the part_007 implementation the claim holds as
stated — every call that returns a wastage value returns exactly
`totalPurchases − totalSales` as accumulated by the window scan, and that
value is non-negative (the invoice.go duplicate returns the same difference
but unchecked, so it can be negative). -/
theorem claim_C6 (st : CC.Store) (itemID : String) (e : Option Int)
    (st' : CC.Store) (w : Int)
    (h : CC.CalculateWastageInRollingWindow st itemID e = (st', .ok w)) :
    ∃ e0 S P, e = some e0 ∧
      CC.scanWindow itemID e e0 0 0 st (CC.queryMatches st itemID e)
        = (st', .ok (S, P)) ∧
      w = P - S ∧ S ≤ P ∧ 0 ≤ w := by
  cases e with
  | none => simp [CC.CalculateWastageInRollingWindow] at h
  | some e0 =>
    simp only [CC.CalculateWastageInRollingWindow] at h
    cases hf : CC.findFirstPurchaseDate itemID (some e0)
        (CC.queryMatches st itemID (some e0)) with
    | error er => rw [hf] at h; simp at h
    | ok o =>
      rw [hf] at h
      cases o with
      | none => simp at h
      | some d0 =>
        simp only at h
        cases hs : CC.scanWindow itemID (some e0) e0 0 0 st
            (CC.queryMatches st itemID (some e0)) with
        | mk st1 r =>
          rw [hs] at h
          cases r with
          | error er => simp at h
          | ok sp =>
            obtain ⟨S, P⟩ := sp
            simp only at h
            by_cases hgt : P < S
            · rw [if_pos hgt] at h; simp at h
            · rw [if_neg hgt] at h
              simp only [Prod.mk.injEq, Except.ok.injEq] at h
              obtain ⟨h1, h2⟩ := h
              exact ⟨e0, S, P, rfl, by rw [hs, h1], h2.symm, not_lt.mp hgt,
                by omega⟩

/-- Witness for C6: purchases 10, sales 5 — the call returns 5 ≥ 0. -/
theorem claim_C6_witness :
    CC.CalculateWastageInRollingWindow c6St "A" (some 100) = (c6St, .ok 5) ∧
    (0 : Int) ≤ 5 := by
  have hcall : CC.CalculateWastageInRollingWindow c6St "A" (some 100)
      = (c6St, .ok 5) := by decide
  obtain ⟨e0, S, P, _, _, _, _, hnn⟩ :=
    claim_C6 c6St "A" (some 100) c6St 5 hcall
  exact ⟨hcall, hnn⟩

/-- Claim C7 (code bug): `CreateInvoice`'s "stamp items with the invoice's
type" statement assigns to the `range`-loop copy, so the stored record keeps
the caller's item bytes unchanged: here the item's `invoice_type` stays `""`
even though the invoice's type is `"purchase"`. -/
theorem claim_C7 :
    (CC.CreateInvoice [] "I1" "S1" (some 5) "purchase" [c7It] 2 "T").2
      = .ok () ∧
    CC.get (CC.CreateInvoice [] "I1" "S1" (some 5) "purchase" [c7It] 2 "T").1
        "I1"
      = some (.inv { invoiceID := "I1", storeID := "S1", date := some 5,
                     items := [c7It], totalAmount := 2, transactionHash := "",
                     timestamp := "T", invoiceType := "purchase" }) ∧
    c7It.invoiceType = "" ∧ ("" : String) ≠ "purchase" := by
  refine ⟨by decide, by decide, by decide, by decide⟩

/-- Claim C8, counterexample: a Ledger Store failure makes `GetTotalPurchases`
and `GetTotalSales` return the numeric sentinel −1 rather than a distinct
error, and −1 also arises as an ordinary total on a healthy store (an invoice
whose item quantity is −1), so the failure is folded into the numeric return
value. -/
theorem claim_C8_counterexample :
    P8.GetTotalPurchases c8FailSt "S1" c8K = -1 ∧
    P8.GetTotalSales c8FailSt "S1" c8K = -1 ∧
    c8FailSt.queryFails = true ∧
    P8.GetTotalPurchases c8NegSt "S1" c8K = -1 ∧
    c8NegSt.queryFails = false := by
  refine ⟨by decide, by decide, by decide, ?_, by decide⟩
  norm_num [P8.GetTotalPurchases, P8.totalsMatch, P8.itemQuantitySum,
    c8NegSt, c8NegInv, c8NegIt, c8K]

/-- Claim C8 as amended: every Ledger Store failure during `GetTotalPurchases`
or `GetTotalSales` is reported only by returning −1 inside the ordinary
numeric result — the functions have no separate error channel. -/
theorem claim_C8 (st : P8.Store) (sid : String) (k : P8.ItemKey)
    (h : st.queryFails = true) :
    P8.GetTotalPurchases st sid k = -1 ∧ P8.GetTotalSales st sid k = -1 := by
  rw [P8.GetTotalPurchases, P8.GetTotalSales, if_pos h, if_pos h]
  exact ⟨rfl, rfl⟩

/-- Witness for the amended C8 at a failing store. -/
theorem claim_C8_witness :
    P8.GetTotalPurchases c8FailSt "S1" c8K = -1 ∧
    P8.GetTotalSales c8FailSt "S1" c8K = -1 :=
  claim_C8 c8FailSt "S1" c8K (by decide)

/-- Claim C9: with `Cs` and `Rs` the corrective and reward coefficients
computed for the call, `RewardAndCorrectiveSystem` returns
`−Cs × (50 − q)` when `q < 50`, `Rs × (q − 50)` when `q ≥ 80`, and `0` on the
neutral band `50 ≤ q < 80`. -/
theorem claim_C9 (st : P8.Store) (sid : String) (q Cs Rs : ℚ)
    (hc : P8.CalculateCorrectiveCoefficient st = .ok Cs)
    (hr : P8.CalculateRewardCoefficient st = .ok Rs) :
    (q < 50 → P8.RewardAndCorrectiveSystem st sid q = .ok (-Cs * (50 - q))) ∧
    (80 ≤ q → P8.RewardAndCorrectiveSystem st sid q = .ok (Rs * (q - 50))) ∧
    (50 ≤ q → q < 80 → P8.RewardAndCorrectiveSystem st sid q = .ok 0) := by
  have hbody : P8.RewardAndCorrectiveSystem st sid q
      = (if q < 50 then .ok (-Cs * (50 - q))
         else if 80 ≤ q then .ok (Rs * (q - 50)) else .ok 0) := by
    simp only [P8.RewardAndCorrectiveSystem, hc, hr]
  refine ⟨fun h => ?_, fun h => ?_, fun h1 h2 => ?_⟩
  · rw [hbody, if_pos h]
  · rw [hbody, if_neg (by linarith), if_pos h]
  · rw [hbody, if_neg (by linarith), if_neg (by linarith)]

/-- Witness for C9: on a store whose only quality record has value 40, the
coefficients are `Cs = 1`, `Rs = 0`, and quality index 30 earns the penalty
`−1 × (50 − 30) = −20`. -/
theorem claim_C9_witness :
    P8.RewardAndCorrectiveSystem c9St "S1" 30 = .ok (-20) := by
  have h := (claim_C9 c9St "S1" 30 1 0 c9_corr c9_rew).1 (by norm_num)
  rw [h]
  norm_num

/-- Claim C10 (implicit): `CreateInvoice` on an id that already holds a live
record is a silent upsert — with a valid type and valid items it succeeds,
overwrites exactly the live key with the new record, touches no other key
(in particular writes no provenance snapshot), and returns no
duplicate-invoice error. -/
theorem claim_C10 (st : CC.Store) (id sid : String) (d : Option Int)
    (tp : String) (items : List CC.Item) (amt : ℚ) (now : String)
    (old : CC.LVal)
    (hexists : CC.get st id = some old)
    (htp : CC.ValidateInvoiceType tp = .ok ())
    (hitems : CC.checkItems d items = .ok ()) :
    CC.CreateInvoice st id sid d tp items amt now
      = (CC.put st id (.inv
          { invoiceID := id, storeID := sid, date := d, items := items,
            totalAmount := amt, transactionHash := "", timestamp := now,
            invoiceType := tp }), .ok ()) ∧
    CC.get (CC.CreateInvoice st id sid d tp items amt now).1 id
      = some (.inv
          { invoiceID := id, storeID := sid, date := d, items := items,
            totalAmount := amt, transactionHash := "", timestamp := now,
            invoiceType := tp }) ∧
    ∀ k, k ≠ id →
      CC.get (CC.CreateInvoice st id sid d tp items amt now).1 k
        = CC.get st k := by
  have h1 : CC.CreateInvoice st id sid d tp items amt now
      = (CC.put st id (.inv
          { invoiceID := id, storeID := sid, date := d, items := items,
            totalAmount := amt, transactionHash := "", timestamp := now,
            invoiceType := tp }), .ok ()) := by
    simp only [CC.CreateInvoice, htp, hitems]
  refine ⟨h1, ?_, ?_⟩
  · rw [h1]
    show CC.get (CC.put st id _) id = _
    rw [CC.get_put, if_pos rfl]
  · intro k hk
    rw [h1]
    show CC.get (CC.put st id _) k = _
    rw [CC.get_put, if_neg hk]

/-- Witness for C10: `"I1"` already holds a record; the create call succeeds,
replaces it, and leaves the unrelated key `"Z"` untouched. -/
theorem claim_C10_witness :
    CC.CreateInvoice c10St "I1" "S1" (some 5) "purchase" [c10It] 4 "T"
      = (CC.put c10St "I1" (.inv
          { invoiceID := "I1", storeID := "S1", date := some 5,
            items := [c10It], totalAmount := 4, transactionHash := "",
            timestamp := "T", invoiceType := "purchase" }), .ok ()) ∧
    CC.get (CC.CreateInvoice c10St "I1" "S1" (some 5) "purchase" [c10It] 4
        "T").1 "Z"
      = CC.get c10St "Z" := by
  have h := claim_C10 c10St "I1" "S1" (some 5) "purchase" [c10It] 4 "T"
    (.inv c10Old) (by decide) (by decide) (by decide)
  exact ⟨h.1, h.2.2 "Z" (by decide)⟩
